import Mathlib

/-!
Shallow embedding of the PayPal → Salesforce payment-event reconciliation
engine (`paypal_sf.py`) of newsrevenuehub/pp-eb-sf-integration.

Modelling conventions:
* Dates are day numbers (`Int`); `(d1 - d2).days` in Python becomes `d1 - d2`.
* Monetary floats are modelled as `Int`; the engine only compares amounts with
  zero and copies them, so no floating-point behaviour is observable here.
* The CRM storage layer (the external `npsp` package: `Contact`, `Opportunity`,
  `RecurringDonation` with `get` / `upsert` / `save`) is not part of the
  repository sources; it is modelled from the spec (identity keys of section 3,
  upsert semantics of section 4.2, `Storage` capabilities of section 6) as a
  pure state transformer over `CRMState`.
* Python side effects persist when an exception is raised, so every stateful
  operation returns `CRMState × Except EngineError α`: the state reached so
  far together with either a value or the raised exception.
* The vendor client (`ppc.get_subscription`) is a function parameter mapping a
  subscription id to the raw payload the vendor would return.
-/

namespace PaypalSF

/-- Errors the engine can raise.  `valueError` is Python's `ValueError`
(notably from `min` of an empty sequence); `dateRangeToleranceExceeded` and
`unsupportedSubscriptionInterval` are the exception classes defined in
`paypal_sf.py`; `notFound` models `Storage.get` on an absent record
(`MissingReferencedOpportunity` in the spec); `exception` is a plain
`raise Exception(msg)` or an `AttributeError`/`KeyError`. -/
inductive EngineError where
  | valueError : EngineError
  | dateRangeToleranceExceeded : EngineError
  | unsupportedSubscriptionInterval : EngineError
  | notFound : String → EngineError
  | exception : String → EngineError
  deriving Repr, DecidableEq

/-- `PeriodType` from `models.py`. -/
inductive PeriodType where
  | monthly : PeriodType
  | yearly : PeriodType
  | once : PeriodType
  deriving Repr, DecidableEq

/-- `.value` of the `PeriodType` string enum. -/
def PeriodType.value : PeriodType → String
  | .monthly => "monthly"
  | .yearly => "yearly"
  | .once => "once"

/-- `Name` dataclass. -/
structure Name where
  first_name : String
  last_name : String
  deriving Repr, DecidableEq

/-- `Address` fields used by the engine (mailing address on a Contact). -/
structure Address where
  mailing_country : String
  mailing_city : String
  mailing_state : String
  mailing_postal_code : String
  mailing_street : String
  deriving Repr, DecidableEq

/-- Canonical PayPal transaction (`PaypalTransaction` dataclass).  Fields the
normalizer leaves absent are `Option`s. -/
structure PaypalTransaction where
  id_ : String
  event_code : String
  reference_id_type : Option String
  reference_id : Option String
  account_id : Option String
  transaction_date : Int
  gross_amount : Int
  fee_amount : Int
  status : String
  subject : Option String
  email : Option String
  note : Option String
  name : Option Name
  address : Option Address
  deriving Repr, DecidableEq

/-- Canonical PayPal subscription (`PaypalSubscription` dataclass). -/
structure PaypalSubscription where
  id_ : String
  status : String
  email : String
  amount : Int
  payer_id : String
  current_payment_date : Int
  create_time : Int
  installment_period : Option PeriodType
  deriving Repr, DecidableEq

/-- The fields of the raw vendor subscription payload that
`PaypalSubscription.from_dict` reads.  `next_billing_time` is absent
(`none`) for cancelled or suspended subscriptions. -/
structure RawSubscription where
  id_ : String
  status : String
  subscriber_email : String
  last_payment_amount : Int
  payer_id : String
  last_payment_time : Int
  next_billing_time : Option Int
  create_time : Int
  deriving Repr, DecidableEq

/-- `PaypalSubscription.from_dict` (`paypal_sf.py` lines 181–211): build the
canonical subscription; for `CANCELLED` or `SUSPENDED` return before reading
`next_billing_time`; otherwise derive the installment period from the day gap
(27–31 → monthly, >360 and ≤366 → yearly, else leave it `none`).  Reading a
missing `next_billing_time` is a Python `KeyError`. -/
def PaypalSubscription.fromDict (data : RawSubscription) :
    Except EngineError PaypalSubscription :=
  let subscription : PaypalSubscription :=
    { id_ := data.id_
      status := data.status
      email := data.subscriber_email.toLower
      amount := data.last_payment_amount
      payer_id := data.payer_id
      current_payment_date := data.last_payment_time
      create_time := data.create_time
      installment_period := none }
  if data.status = "CANCELLED" then
    .ok subscription
  else if data.status = "SUSPENDED" then
    .ok subscription
  else
    match data.next_billing_time with
    | none => .error (.exception "KeyError: next_billing_time")
    | some next_payment_date =>
      let days : Int := next_payment_date - data.last_payment_time
      if days ≥ 27 ∧ days ≤ 31 then
        .ok { subscription with installment_period := some PeriodType.monthly }
      else if days > 360 ∧ days ≤ 366 then
        .ok { subscription with installment_period := some PeriodType.yearly }
      else
        .ok subscription

/-- `Organization` (from `models.py`), restricted to the fields the payment
engine reads.  `sfc` is the Salesforce-connection identity used as the
organization component of every natural key. -/
structure Organization where
  slug : String
  sfc : String
  paypal_property : Option String
  deriving Repr, DecidableEq

/-- CRM Contact record (external `npsp` object; fields as used by this
engine).  `id_` and `account_id` are `none` until the record is stored. -/
structure Contact where
  id_ : Option Nat
  account_id : Option Nat
  sfc : String
  email : Option String
  lead_source : String
  first_name : String
  last_name : String
  mailing_country : Option String
  mailing_city : Option String
  mailing_state : Option String
  mailing_postal_code : Option String
  mailing_street : Option String
  deriving Repr, DecidableEq

/-- CRM Opportunity record (external `npsp` object; fields as used by this
engine). -/
structure Opportunity where
  id_ : Option Nat
  sfc : String
  account_id : Option Nat
  amount : Int
  donor_selected_amount : Int
  net_amount : Int
  stage_name : String
  paypal_account_id : Option String
  lead_source : String
  name : String
  paypal_transaction_id : Option String
  close_date : Int
  encouraged_by : Option String
  org_property : Option String
  recurring_donation_id : Option Nat
  installment_period : Option String
  type_ : Option String
  deriving Repr, DecidableEq

/-- CRM RecurringDonation record (external `npsp` object; fields as used by
this engine). -/
structure RecurringDonation where
  id_ : Option Nat
  sfc : String
  amount : Int
  contact_id : Option Nat
  date_established : Int
  installment_period : String
  installments : Option Nat
  lead_source : String
  name : String
  open_ended_status : String
  paypal_account_id : Option String
  paypal_subscription_id : Option String
  org_property : Option String
  deriving Repr, DecidableEq

/-- Modelled from the spec: the CRM storage state behind the absent `npsp`
package — the stored records of each entity type plus a fresh-id counter
(`Storage` of spec section 6; record ids are generated at creation). -/
structure CRMState where
  contacts : List Contact
  opportunities : List Opportunity
  recurring_donations : List RecurringDonation
  nextId : Nat
  deriving Repr, DecidableEq

/-! ### The matcher: `find_closest_opportunity` -/

/-- `abs((opp.close_date - transaction.transaction_date).days)`. -/
def dayDelta (opp : Opportunity) (transaction_date : Int) : Nat :=
  (opp.close_date - transaction_date).natAbs

/-- Python's `min(xs, key=lambda x: x[1])` over a non-empty list: a left scan
that replaces the current minimum only when a strictly smaller key appears,
so the first element attaining the minimum wins. -/
def pyMinBy (x : Opportunity × Nat) (xs : List (Opportunity × Nat)) :
    Opportunity × Nat :=
  xs.foldl (fun acc y => if y.2 < acc.2 then y else acc) x

/-- The accumulator after one step of the scan. -/
def pyStep (x y : Opportunity × Nat) : Opportunity × Nat :=
  if y.2 < x.2 then y else x

/-- `find_closest_opportunity` (`paypal_sf.py` lines 322–331): pair each
candidate with its absolute day delta to the transaction date, take the
minimum (Python `min`, which raises `ValueError` on an empty sequence), and
fail with `DateRangeToleranceExceeded` when the delta exceeds 10.  The `org`
argument is only used for logging in the source. -/
def find_closest_opportunity (opportunities : List Opportunity)
    (transaction : PaypalTransaction) (_org : Organization) :
    Except EngineError Opportunity :=
  let opps := opportunities.map
    (fun opp => (opp, dayDelta opp transaction.transaction_date))
  match opps with
  | [] => .error .valueError
  | x :: xs =>
    let m := pyMinBy x xs
    if m.2 > 10 then .error .dateRangeToleranceExceeded
    else .ok m.1

/-- Minimum day delta of a candidate list, written as the same left fold the
Python `min` performs on the keys. -/
def minDelta (opportunities : List Opportunity) (transaction_date : Int) : Nat :=
  match opportunities with
  | [] => 0
  | x :: xs =>
    xs.foldl (fun m opp => Nat.min m (dayDelta opp transaction_date))
      (dayDelta x transaction_date)

/-! ### Storage operations

The `npsp` storage layer is not among the repository sources; the operations
below are modelled from the spec: `Storage.get(entity_type, natural_key) ->
record | absent`, `Storage.upsert` (get-or-create by natural key, section
4.2), and `save` (one atomic write of one record).  Identity keys are those
of spec section 3: Contact = (organization, email), standalone Opportunity =
external transaction id, RecurringDonation = (organization, subscription id).
-/

/-- Modelled from the spec: `Contact.upsert` — look up by the natural key
(organization, email); if present return the stored record (the engine calls
`upsert()` with no overwrite fields, and fields not named are never
clobbered); if absent create it, assigning a fresh record id and account id. -/
def Contact.upsert (c : Contact) (st : CRMState) : Contact × CRMState :=
  match st.contacts.find? (fun x => x.sfc = c.sfc ∧ x.email = c.email) with
  | some existing => (existing, st)
  | none =>
    let stored := { c with id_ := some st.nextId, account_id := some st.nextId }
    (stored, { st with contacts := st.contacts ++ [stored],
                       nextId := st.nextId + 1 })

/-- Modelled from the spec: `Opportunity.upsert` — look up by the natural key
(organization, external transaction id) of a standalone Opportunity; if
present return the stored record; if absent create it with a fresh id. -/
def Opportunity.upsert (o : Opportunity) (st : CRMState) : Opportunity × CRMState :=
  match st.opportunities.find?
      (fun x => x.sfc = o.sfc ∧ x.paypal_transaction_id = o.paypal_transaction_id) with
  | some existing => (existing, st)
  | none =>
    let stored := { o with id_ := some st.nextId }
    (stored, { st with opportunities := st.opportunities ++ [stored],
                       nextId := st.nextId + 1 })

/-- Modelled from the spec: `Opportunity.save` — one atomic write: a record
without an id is created (assigned a fresh id and appended); a record with an
id replaces the stored record carrying that id. -/
def Opportunity.save (o : Opportunity) (st : CRMState) : Opportunity × CRMState :=
  match o.id_ with
  | none =>
    let stored := { o with id_ := some st.nextId }
    (stored, { st with opportunities := st.opportunities ++ [stored],
                       nextId := st.nextId + 1 })
  | some i =>
    (o, { st with opportunities :=
      st.opportunities.map (fun x => if x.id_ = some i then o else x) })

/-- Modelled from the spec: `Opportunity.get(sfc=…, paypal_transaction_id=…)`
— fetch by natural key, `none` when absent. -/
def Opportunity.get (st : CRMState) (sfc : String)
    (paypal_transaction_id : Option String) : Option Opportunity :=
  st.opportunities.find?
    (fun x => x.sfc = sfc ∧ x.paypal_transaction_id = paypal_transaction_id)

/-- Modelled from the spec: `RecurringDonation.save` — same write semantics
as `Opportunity.save`. -/
def RecurringDonation.save (r : RecurringDonation) (st : CRMState) :
    RecurringDonation × CRMState :=
  match r.id_ with
  | none =>
    let stored := { r with id_ := some st.nextId }
    (stored, { st with recurring_donations := st.recurring_donations ++ [stored],
                       nextId := st.nextId + 1 })
  | some i =>
    (r, { st with recurring_donations :=
      st.recurring_donations.map (fun x => if x.id_ = some i then r else x) })

/-- Modelled from the spec: `RecurringDonation.get(sfc=…,
paypal_subscription_id=…)`. -/
def RecurringDonation.getBySubscription (st : CRMState) (sfc : String)
    (paypal_subscription_id : Option String) : Option RecurringDonation :=
  st.recurring_donations.find?
    (fun x => x.sfc = sfc ∧ x.paypal_subscription_id = paypal_subscription_id)

/-- Modelled from the spec: `RecurringDonation.get(sfc=…, id_=…)`. -/
def RecurringDonation.getById (st : CRMState) (sfc : String) (id_ : Nat) :
    Option RecurringDonation :=
  st.recurring_donations.find? (fun x => x.sfc = sfc ∧ x.id_ = some id_)

/-- Modelled from the spec: `RecurringDonation.get(sfc=…,
paypal_account_id=…)`. -/
def RecurringDonation.getByAccount (st : CRMState) (sfc : String)
    (paypal_account_id : Option String) : Option RecurringDonation :=
  st.recurring_donations.find?
    (fun x => x.sfc = sfc ∧ x.paypal_account_id = paypal_account_id)

/-- Modelled from the spec: `recurring_donation.opportunities()` — the
ordered collection of Opportunities linked to this RecurringDonation
(spec section 3: located by `recurring_donation_id`). -/
def RecurringDonation.opportunities (r : RecurringDonation) (st : CRMState) :
    List Opportunity :=
  st.opportunities.filter (fun x => x.recurring_donation_id = r.id_ ∧ r.id_ ≠ none)

/-! ### Record construction and the engine proper -/

/-- `find_email` (`paypal_sf.py` lines 334–337): prefer the transaction's
email; otherwise read it off the subscription — an `AttributeError` when the
subscription argument is `None`. -/
def find_email (transaction : PaypalTransaction)
    (subscription : Option PaypalSubscription) :
    Except EngineError (Option String) :=
  match transaction.email with
  | some e => .ok (some e)
  | none =>
    match subscription with
    | some s => .ok (some s.email)
    | none => .error (.exception "AttributeError: NoneType has no email")

/-- `contact_from_paypal_transaction` (lines 244–260): build a Contact from
the transaction's name and address; reading `transaction.name.first_name`
when the name is absent is an `AttributeError`. -/
def contact_from_paypal_transaction (transaction : PaypalTransaction)
    (email : Option String) (org : Organization) :
    Except EngineError Contact :=
  match transaction.name with
  | none => .error (.exception "AttributeError: NoneType has no first_name")
  | some name =>
    let contact : Contact :=
      { id_ := none
        account_id := none
        sfc := org.sfc
        email := email
        lead_source := "PayPal"
        first_name := name.first_name
        last_name := name.last_name
        mailing_country := none
        mailing_city := none
        mailing_state := none
        mailing_postal_code := none
        mailing_street := none }
    match transaction.address with
    | none => .ok contact
    | some address =>
      .ok { contact with
              mailing_country := some address.mailing_country
              mailing_city := some address.mailing_city
              mailing_state := some address.mailing_state
              mailing_postal_code := some address.mailing_postal_code
              mailing_street := some address.mailing_street }

/-- Render an optional string the way Python interpolates it (absent →
"None"), for Opportunity names. -/
def optStr (s : Option String) : String := s.getD "None"

/-- `opportunity_from_paypal_transaction` (lines 263–284). -/
def opportunity_from_paypal_transaction (transaction : PaypalTransaction)
    (contact : Contact) (org : Organization) : Opportunity :=
  let name :=
    match transaction.subject with
    | some subject =>
      "PayPal: " ++ subject ++ " (" ++ optStr transaction.email ++ ")"
    | none => "PayPal: " ++ optStr transaction.email
  { id_ := none
    sfc := org.sfc
    account_id := contact.account_id
    amount := transaction.gross_amount
    donor_selected_amount := transaction.gross_amount
    net_amount := transaction.gross_amount - transaction.fee_amount
    stage_name := "Closed Won"
    paypal_account_id := transaction.account_id
    lead_source := "PayPal"
    name := name
    paypal_transaction_id := some transaction.id_
    close_date := transaction.transaction_date
    encouraged_by := transaction.note
    org_property := org.paypal_property
    recurring_donation_id := none
    installment_period := none
    type_ := none }

/-- `recurring_donation_from_paypal_subscription` (lines 287–307): raises
unless the subscription is `ACTIVE`; reading `.value` of an absent
installment period is an `AttributeError`.  The new record's
`open_ended_status` is `"Open"`. -/
def recurring_donation_from_paypal_subscription
    (subscription : PaypalSubscription) (transaction_date : Int)
    (contact : Contact) (org : Organization) :
    Except EngineError RecurringDonation :=
  if subscription.status ≠ "ACTIVE" then
    .error (.exception ("Subscription " ++ subscription.id_ ++ " is not ACTIVE"))
  else
    match subscription.installment_period with
    | none => .error (.exception "AttributeError: NoneType has no value")
    | some period =>
      .ok
        { id_ := none
          sfc := org.sfc
          amount := subscription.amount
          contact_id := contact.id_
          date_established := transaction_date
          installment_period := period.value
          installments := none
          lead_source := "PayPal"
          name := subscription.email ++ " (PayPal)"
          open_ended_status := "Open"
          paypal_account_id := some subscription.payer_id
          paypal_subscription_id := some subscription.id_
          org_property := org.paypal_property }

/-- `update_opportunity` (lines 310–319): overwrite the payment fields of an
Opportunity from the transaction and save it. -/
def update_opportunity (opportunity : Opportunity)
    (transaction : PaypalTransaction) (st : CRMState) : CRMState :=
  let updated := { opportunity with
    close_date := transaction.transaction_date
    stage_name := "Closed Won"
    paypal_transaction_id := some transaction.id_
    paypal_account_id := transaction.account_id
    amount := transaction.gross_amount
    donor_selected_amount := transaction.gross_amount
    net_amount := transaction.gross_amount - transaction.fee_amount
    encouraged_by := transaction.note }
  (updated.save st).2

/-- `process_as_single_opportunity` (lines 340–344): upsert the Contact by
email, then upsert a standalone Opportunity keyed by the transaction id. -/
def process_as_single_opportunity (transaction : PaypalTransaction)
    (org : Organization) (subscription : Option PaypalSubscription)
    (st : CRMState) : CRMState × Except EngineError Unit :=
  match find_email transaction subscription with
  | .error e => (st, .error e)
  | .ok email =>
    match contact_from_paypal_transaction transaction email org with
    | .error e => (st, .error e)
    | .ok contact =>
      let r1 := contact.upsert st
      let opportunity :=
        opportunity_from_paypal_transaction transaction r1.1 org
      let r2 := opportunity.upsert r1.2
      (r2.2, .ok ())

/-- The comparison `subscription == "CANCELLED"` at `paypal_sf.py` line 361:
a `PaypalSubscription` dataclass instance compared to a `str`.  Both
`__eq__` methods return `NotImplemented`, so Python falls back to identity
and the comparison is always `False`. -/
def subscriptionEqStr (_ : PaypalSubscription) (_ : String) : Bool := false

/-- `process_refund` (lines 347–364): fetch the Opportunity by the refund's
`reference_id`, mark it `Refunded` and save; if it links to a
RecurringDonation that is not already `Closed`, fetch the vendor's current
subscription and close the RecurringDonation when `subscription ==
"CANCELLED"` (the dataclass-to-string comparison of line 361, which is
always false — see `subscriptionEqStr`).  `ppc` maps a subscription id to
the raw payload `ppc.get_subscription` would return. -/
def process_refund (transaction : PaypalTransaction) (org : Organization)
    (ppc : Option String → RawSubscription) (st : CRMState) :
    CRMState × Except EngineError Unit :=
  match Opportunity.get st org.sfc transaction.reference_id with
  | none => (st, .error (.notFound "Opportunity"))
  | some opportunity =>
    let saved := ({ opportunity with stage_name := "Refunded" }).save st
    match saved.1.recurring_donation_id with
    | none => (saved.2, .ok ())
    | some rd_id =>
      match RecurringDonation.getById saved.2 org.sfc rd_id with
      | none => (saved.2, .error (.exception "AttributeError: NoneType"))
      | some recurring_donation =>
        if recurring_donation.open_ended_status = "Closed" then
          (saved.2, .ok ())
        else
          let raw_subscription := ppc recurring_donation.paypal_subscription_id
          match PaypalSubscription.fromDict raw_subscription with
          | .error e => (saved.2, .error e)
          | .ok subscription =>
            if subscriptionEqStr subscription "CANCELLED" then
              ((({ recurring_donation with
                  open_ended_status := "Closed" }).save saved.2).2, .ok ())
            else
              (saved.2, .ok ())

/-- Lines 396–415 of `process_subscription_payment`, the part reached with a
RecurringDonation in hand (fetched or just created): close it when the
subscription is now `CANCELLED`, then match the transaction against its
linked Opportunities — update the closest in place, or on
`DateRangeToleranceExceeded` create a new linked Opportunity with `type_ =
"Recurring Donation"` and the subscription's installment period.  Any other
error from the matcher (the `ValueError` of Python's `min` on an empty
sequence) propagates uncaught. -/
def process_subscription_payment_tail (transaction : PaypalTransaction)
    (subscription : PaypalSubscription) (org : Organization)
    (recurring_donation : RecurringDonation) (st : CRMState) :
    CRMState × Except EngineError Unit :=
  let closed :=
    if subscription.status = "CANCELLED" then
      ({ recurring_donation with open_ended_status := "Closed" }).save st
    else
      (recurring_donation, st)
  let opportunities := closed.1.opportunities closed.2
  match find_closest_opportunity opportunities transaction org with
  | .ok opportunity =>
    (update_opportunity opportunity transaction closed.2, .ok ())
  | .error .dateRangeToleranceExceeded =>
    (match find_email transaction (some subscription) with
     | .error e => (closed.2, .error e)
     | .ok email =>
       match contact_from_paypal_transaction transaction email org with
       | .error e => (closed.2, .error e)
       | .ok contact =>
         let r1 := contact.upsert closed.2
         let opportunity :=
           opportunity_from_paypal_transaction transaction r1.1 org
         match subscription.installment_period with
         | none =>
           (r1.2, .error (.exception "AttributeError: NoneType has no value"))
         | some period =>
           (update_opportunity
             { opportunity with
               recurring_donation_id := closed.1.id_
               installment_period := some period.value
               type_ := some "Recurring Donation" } transaction r1.2, .ok ()))
  | .error e => (closed.2, .error e)

/-- `process_subscription_payment` (lines 367–415): look the
RecurringDonation up by the transaction's `reference_id`; when absent and the
subscription is `CANCELLED`, `SUSPENDED`, or of unsupported interval, fall
back to a standalone Opportunity; when absent otherwise, create the Contact
and the RecurringDonation; then proceed as
`process_subscription_payment_tail`. -/
def process_subscription_payment (transaction : PaypalTransaction)
    (subscription : PaypalSubscription) (org : Organization) (st : CRMState) :
    CRMState × Except EngineError Unit :=
  match RecurringDonation.getBySubscription st org.sfc transaction.reference_id with
  | some recurring_donation =>
    process_subscription_payment_tail transaction subscription org
      recurring_donation st
  | none =>
    if subscription.status = "CANCELLED" then
      process_as_single_opportunity transaction org (some subscription) st
    else if subscription.status = "SUSPENDED" then
      process_as_single_opportunity transaction org (some subscription) st
    else if subscription.installment_period = none then
      process_as_single_opportunity transaction org (some subscription) st
    else
      match find_email transaction (some subscription) with
      | .error e => (st, .error e)
      | .ok email =>
        match contact_from_paypal_transaction transaction email org with
        | .error e => (st, .error e)
        | .ok contact =>
          let r1 := contact.upsert st
          match recurring_donation_from_paypal_subscription subscription
              transaction.transaction_date r1.1 org with
          | .error e => (r1.2, .error e)
          | .ok recurring_donation =>
            let r2 := recurring_donation.save r1.2
            process_subscription_payment_tail transaction subscription org
              r2.1 r2.2

/-- Lines 479–501 of `handle_paypal_charge_external_initiation`: the
subscription-payment tail reached for a `T0002` transaction with
`gross_amount >= 0` and status `"S"`.  With `reference_id_type == "SUB"`
fetch the subscription from the vendor, insist its status is one of
`ACTIVE`/`CANCELLED`/`SUSPENDED`, and run `process_subscription_payment`;
otherwise look a RecurringDonation up by PayPal account id — updating the
closest linked Opportunity when one is found (with no handler for
`DateRangeToleranceExceeded` here), and falling back to a standalone
Opportunity when none is. -/
def handle_subscription_charge (transaction : PaypalTransaction)
    (org : Organization) (ppc : Option String → RawSubscription)
    (st : CRMState) : CRMState × Except EngineError Unit :=
  if transaction.reference_id_type = some "SUB" then
    match PaypalSubscription.fromDict (ppc transaction.reference_id) with
    | .error e => (st, .error e)
    | .ok subscription =>
      if subscription.status ∉ ["ACTIVE", "CANCELLED", "SUSPENDED"] then
        (st, .error (.exception "unknown subscription status"))
      else
        process_subscription_payment transaction subscription org st
  else
    match RecurringDonation.getByAccount st org.sfc transaction.account_id with
    | some recurring_donation =>
      let opportunities := recurring_donation.opportunities st
      match find_closest_opportunity opportunities transaction org with
      | .ok opportunity => (update_opportunity opportunity transaction st, .ok ())
      | .error e => (st, .error e)
    | none =>
      process_as_single_opportunity transaction org none st

/-- `handle_paypal_charge_external_initiation` (lines 418–501) on the
canonical transaction (the normalizer `PaypalTransaction.from_dict` of the
raw payload happens before this logic and is deterministic): skip the
internal-movement event codes, skip negative `T0000` and positive `T1107`
amounts, route `T1107` to `process_refund`, route the donation codes to a
standalone Opportunity, reject unknown codes, and for `T0002` require a
non-negative amount (else skip) and settled status `"S"` (else raise) before
`handle_subscription_charge`. -/
def handle_paypal_charge_external_initiation (org : Organization)
    (transaction : PaypalTransaction) (ppc : Option String → RawSubscription)
    (st : CRMState) : CRMState × Except EngineError Unit :=
  if transaction.event_code ∈ ["T0400", "T0401", "T0003", "T0007", "T0300",
      "T0101", "T0200", "T1501", "T1105", "T1106"] then
    (st, .ok ())
  else if transaction.event_code = "T0000" ∧ transaction.gross_amount < 0 then
    (st, .ok ())
  else if transaction.event_code = "T1107" ∧ transaction.gross_amount > 0 then
    (st, .ok ())
  else if transaction.event_code = "T1107" then
    process_refund transaction org ppc st
  else if transaction.event_code ∈ ["T0013", "T0000", "T0011", "T0001"] then
    process_as_single_opportunity transaction org none st
  else if transaction.event_code ≠ "T0002" then
    (st, .error (.exception ("Unknown event code: " ++ transaction.event_code)))
  else if transaction.gross_amount < 0 then
    (st, .ok ())
  else if transaction.status ≠ "S" then
    (st, .error (.exception "Transaction status is not S"))
  else
    handle_subscription_charge transaction org ppc st

/-! ### Invariant vocabulary and concrete fixtures -/

/-- A storage state is well formed when every stored RecurringDonation has an
id below the fresh-id counter and ids identify records uniquely. -/
def WellFormed (st : CRMState) : Prop :=
  (∀ r ∈ st.recurring_donations, r.id_.all (fun i => i < st.nextId) = true) ∧
  (∀ r1 ∈ st.recurring_donations, ∀ r2 ∈ st.recurring_donations,
    r1.id_ = r2.id_ → r1 = r2)

/-- One engine step relates the pre- and post-states so that every stored
RecurringDonation afterwards either descends from one with the same id whose
`open_ended_status` is unchanged or has been set to `"Closed"`, or is a
brand-new record carrying a fresh id. -/
def RdStep (pre post : CRMState) : Prop :=
  pre.nextId ≤ post.nextId ∧
  ∀ r' ∈ post.recurring_donations,
    (∃ r ∈ pre.recurring_donations, r.id_ = r'.id_ ∧
      (r.open_ended_status = r'.open_ended_status ∨
        r'.open_ended_status = "Closed")) ∨
    ∃ i, r'.id_ = some i ∧ pre.nextId ≤ i

/-- Number of stored Opportunities carrying a given PayPal transaction id. -/
def opportunityCountForTxn (st : CRMState) (txn_id : String) : Nat :=
  (st.opportunities.filter
    (fun o => o.paypal_transaction_id = some txn_id)).length

/-- A fixture organization. -/
def orgX : Organization := { slug := "nrh", sfc := "SF", paypal_property := none }

/-- Fixture: a stored Opportunity for transaction `TXN1`, linked to
RecurringDonation `2`. -/
def oppRefunded : Opportunity :=
  { id_ := some 1, sfc := "SF", account_id := some 5, amount := 25,
    donor_selected_amount := 25, net_amount := 24, stage_name := "Closed Won",
    paypal_account_id := some "ACCT1", lead_source := "PayPal", name := "x",
    paypal_transaction_id := some "TXN1", close_date := 100,
    encouraged_by := none, org_property := none,
    recurring_donation_id := some 2, installment_period := some "monthly",
    type_ := some "Recurring Donation" }

/-- Fixture: the open RecurringDonation `2` for vendor subscription `SUB1`. -/
def rdOpen : RecurringDonation :=
  { id_ := some 2, sfc := "SF", amount := 25, contact_id := some 5,
    date_established := 100, installment_period := "monthly",
    installments := none, lead_source := "PayPal", name := "rd",
    open_ended_status := "Open", paypal_account_id := some "PAYER1",
    paypal_subscription_id := some "SUB1", org_property := none }

/-- Fixture: state holding `oppRefunded` and `rdOpen`. -/
def stRefund : CRMState :=
  { contacts := [], opportunities := [oppRefunded],
    recurring_donations := [rdOpen], nextId := 3 }

/-- Fixture: the merchant-initiated refund of `TXN1`. -/
def refundTxn : PaypalTransaction :=
  { id_ := "REF1", event_code := "T1107", reference_id_type := some "TXN",
    reference_id := some "TXN1", account_id := some "ACCT1",
    transaction_date := 130, gross_amount := -25, fee_amount := 0,
    status := "S", subject := none, email := some "a@b.c", note := none,
    name := some { first_name := "A", last_name := "B" }, address := none }

/-- Fixture: a vendor that reports every subscription as `CANCELLED` (so no
`next_billing_time`). -/
def ppcCancelled : Option String → RawSubscription := fun _ =>
  { id_ := "SUB1", status := "CANCELLED", subscriber_email := "a@b.c",
    last_payment_amount := 25, payer_id := "PAYER1", last_payment_time := 100,
    next_billing_time := none, create_time := 0 }

/-- Fixture: a first-sighted settled subscription payment `TXN2` for vendor
subscription `SUB2`. -/
def subTxn : PaypalTransaction :=
  { id_ := "TXN2", event_code := "T0002", reference_id_type := some "SUB",
    reference_id := some "SUB2", account_id := some "ACCT2",
    transaction_date := 200, gross_amount := 25, fee_amount := 1,
    status := "S", subject := none, email := some "d@e.f", note := none,
    name := some { first_name := "C", last_name := "D" }, address := none }

/-- Fixture: a vendor that reports every subscription as `ACTIVE` with a
30-day gap between last payment and next billing (a monthly cadence). -/
def ppcActive30 : Option String → RawSubscription := fun _ =>
  { id_ := "SUB2", status := "ACTIVE", subscriber_email := "d@e.f",
    last_payment_amount := 25, payer_id := "PAYER2", last_payment_time := 200,
    next_billing_time := some 230, create_time := 0 }

/-- Fixture: the empty storage state. -/
def stEmpty : CRMState :=
  { contacts := [], opportunities := [], recurring_donations := [], nextId := 1 }

/-- Fixture: candidate at delta 2 with the later close date, listed first. -/
def oppTieLate : Opportunity :=
  { oppRefunded with
    id_ := some 1
    close_date := 22
    recurring_donation_id := none
    paypal_transaction_id := some "A" }

/-- Fixture: candidate at delta 2 with the earlier close date and higher id,
listed second. -/
def oppTieEarly : Opportunity :=
  { oppRefunded with
    id_ := some 2
    close_date := 18
    recurring_donation_id := none
    paypal_transaction_id := some "B" }

/-- Fixture: a transaction dated between the two tied candidates. -/
def tieTxn : PaypalTransaction := { subTxn with transaction_date := 20 }

/-- Fixture: a RecurringDonation locatable by PayPal account id `ACCT5`. -/
def rdByAccount : RecurringDonation :=
  { rdOpen with
    id_ := some 7
    paypal_account_id := some "ACCT5"
    paypal_subscription_id := some "SUB5" }

/-- Fixture: the single Opportunity linked to `rdByAccount`, closing at day
300. -/
def oppLinked : Opportunity :=
  { oppRefunded with
    id_ := some 8
    recurring_donation_id := some 7
    close_date := 300
    paypal_transaction_id := some "TXN5" }

/-- Fixture: state holding `rdByAccount` and `oppLinked`. -/
def stByAccount : CRMState :=
  { contacts := [], opportunities := [oppLinked],
    recurring_donations := [rdByAccount], nextId := 9 }

/-- Fixture: a settled subscription payment without a subscription reference
(`reference_id_type` is not `SUB`), 11 days after `oppLinked`'s close date. -/
def nonSubTxn : PaypalTransaction :=
  { subTxn with
    id_ := "TXN6"
    reference_id_type := some "ODR"
    reference_id := some "X"
    account_id := some "ACCT5"
    transaction_date := 311 }

/-! ### Lemmas about the Python `min` scan -/

theorem pyMinBy_nil (x : Opportunity × Nat) : pyMinBy x [] = x := rfl

theorem pyMinBy_cons (x y : Opportunity × Nat) (ys : List (Opportunity × Nat)) :
    pyMinBy x (y :: ys) = pyMinBy (if y.2 < x.2 then y else x) ys := rfl

/-- The scan keeps the accumulator when nothing later is strictly smaller. -/
theorem pyMinBy_of_forall_le (xs : List (Opportunity × Nat))
    (x : Opportunity × Nat) (h : ∀ p ∈ xs, x.2 ≤ p.2) : pyMinBy x xs = x := by
  induction xs with
  | nil => rfl
  | cons y ys ih =>
    rw [pyMinBy_cons, if_neg (Nat.not_lt.mpr (h y (List.mem_cons_self y ys)))]
    exact ih fun p hp => h p (List.mem_cons_of_mem y hp)

theorem pyStep_snd (x y : Opportunity × Nat) :
    (pyStep x y).2 = Nat.min x.2 y.2 := by
  unfold pyStep
  by_cases h : y.2 < x.2
  · rw [if_pos h]
    exact (Nat.min_eq_right (Nat.le_of_lt h)).symm
  · rw [if_neg h]
    exact (Nat.min_eq_left (Nat.not_lt.mp h)).symm

theorem pyStep_le_left (x y : Opportunity × Nat) : (pyStep x y).2 ≤ x.2 := by
  rw [pyStep_snd]; exact Nat.min_le_left _ _

theorem pyStep_le_right (x y : Opportunity × Nat) : (pyStep x y).2 ≤ y.2 := by
  rw [pyStep_snd]; exact Nat.min_le_right _ _

theorem pyMinBy_cons_step (x y : Opportunity × Nat)
    (ys : List (Opportunity × Nat)) :
    pyMinBy x (y :: ys) = pyMinBy (pyStep x y) ys := rfl

/-- The scan's result key is a lower bound of the accumulator's key and of
every scanned key. -/
theorem pyMinBy_le (xs : List (Opportunity × Nat)) (x : Opportunity × Nat) :
    (pyMinBy x xs).2 ≤ x.2 ∧ ∀ p ∈ xs, (pyMinBy x xs).2 ≤ p.2 := by
  induction xs generalizing x with
  | nil => exact ⟨Nat.le_refl _, by simp⟩
  | cons y ys ih =>
    rw [pyMinBy_cons_step]
    obtain ⟨h1, h2⟩ := ih (pyStep x y)
    refine ⟨Nat.le_trans h1 (pyStep_le_left x y), ?_⟩
    intro p hp
    rcases List.mem_cons.mp hp with hpy | hpys
    · subst hpy
      exact Nat.le_trans h1 (pyStep_le_right x p)
    · exact h2 p hpys

/-- The scan's result is the accumulator or one of the scanned elements. -/
theorem pyMinBy_eq_or_mem (xs : List (Opportunity × Nat))
    (x : Opportunity × Nat) : pyMinBy x xs = x ∨ pyMinBy x xs ∈ xs := by
  induction xs generalizing x with
  | nil => exact Or.inl rfl
  | cons y ys ih =>
    rw [pyMinBy_cons_step]
    rcases ih (pyStep x y) with h | h
    · rw [h]
      unfold pyStep
      by_cases hc : y.2 < x.2
      · rw [if_pos hc]
        exact Or.inr (List.mem_cons_self y ys)
      · rw [if_neg hc]
        exact Or.inl rfl
    · exact Or.inr (List.mem_cons_of_mem y h)

/-- An accumulator whose key already equals the scan's resulting key is
returned itself (left bias of the Python scan). -/
theorem pyMinBy_eq_self_of_snd_eq (xs : List (Opportunity × Nat))
    (x : Opportunity × Nat) (h : (pyMinBy x xs).2 = x.2) : pyMinBy x xs = x := by
  apply pyMinBy_of_forall_le
  intro p hp
  exact h ▸ (pyMinBy_le xs x).2 p hp

/-- The Python scan returns the first element attaining the minimum key:
`find?` with the resulting key over the scanned list finds exactly the
scan's result. -/
theorem pyMinBy_find? (xs : List (Opportunity × Nat)) (x : Opportunity × Nat) :
    (x :: xs).find? (fun p => p.2 == (pyMinBy x xs).2) = some (pyMinBy x xs) := by
  induction xs generalizing x with
  | nil =>
    rw [pyMinBy_nil, List.find?_cons_of_pos _ (by simp)]
  | cons y ys ih =>
    rw [pyMinBy_cons_step]
    by_cases hyx : y.2 < x.2
    · have hst : pyStep x y = y := if_pos hyx
      rw [hst]
      have hlt : (pyMinBy y ys).2 < x.2 :=
        Nat.lt_of_le_of_lt (pyMinBy_le ys y).1 hyx
      rw [List.find?_cons_of_neg _ (by simpa using (Nat.ne_of_lt hlt).symm), ih y]
    · have hst : pyStep x y = x := if_neg hyx
      rw [hst]
      by_cases hx : (pyMinBy x ys).2 = x.2
      · rw [List.find?_cons_of_pos _ (by simpa using hx.symm),
          pyMinBy_eq_self_of_snd_eq ys x hx]
      · have hxlt : (pyMinBy x ys).2 < x.2 :=
          Nat.lt_of_le_of_ne (pyMinBy_le ys x).1 hx
        have hylt : (pyMinBy x ys).2 < y.2 :=
          Nat.lt_of_lt_of_le hxlt (Nat.not_lt.mp hyx)
        rw [List.find?_cons_of_neg _ (by simpa using (Nat.ne_of_lt hxlt).symm),
          List.find?_cons_of_neg _ (by simpa using (Nat.ne_of_lt hylt).symm)]
        have h := ih x
        rwa [List.find?_cons_of_neg _ (by simpa using (Nat.ne_of_lt hxlt).symm)] at h

/-- The scan's resulting key is the left fold of `Nat.min` over the keys. -/
theorem pyMinBy_snd (xs : List (Opportunity × Nat)) (x : Opportunity × Nat) :
    (pyMinBy x xs).2 = xs.foldl (fun m p => Nat.min m p.2) x.2 := by
  induction xs generalizing x with
  | nil => rfl
  | cons y ys ih =>
    rw [pyMinBy_cons_step, List.foldl_cons, ih (pyStep x y), pyStep_snd]

/-- The scan's resulting key over the delta-paired candidates is `minDelta`. -/
theorem pyMinBy_snd_eq_minDelta (x : Opportunity) (xs : List Opportunity)
    (d : Int) :
    (pyMinBy (x, dayDelta x d) (xs.map fun o => (o, dayDelta o d))).2 =
      minDelta (x :: xs) d := by
  rw [pyMinBy_snd, List.foldl_map]
  rfl

/-- Unfolding of the matcher on a non-empty candidate list. -/
theorem find_closest_opportunity_cons (x : Opportunity) (xs : List Opportunity)
    (t : PaypalTransaction) (org : Organization) :
    find_closest_opportunity (x :: xs) t org =
      if (pyMinBy (x, dayDelta x t.transaction_date)
            (xs.map fun o => (o, dayDelta o t.transaction_date))).2 > 10 then
        .error .dateRangeToleranceExceeded
      else
        .ok (pyMinBy (x, dayDelta x t.transaction_date)
          (xs.map fun o => (o, dayDelta o t.transaction_date))).1 := rfl

/-- The scan's result over the delta-paired candidates is a candidate and its
key is that candidate's delta. -/
theorem pyMinBy_delta_mem (x : Opportunity) (xs : List Opportunity) (d : Int) :
    (pyMinBy (x, dayDelta x d) (xs.map fun o => (o, dayDelta o d))).1 ∈ x :: xs ∧
    dayDelta (pyMinBy (x, dayDelta x d) (xs.map fun o => (o, dayDelta o d))).1 d =
      (pyMinBy (x, dayDelta x d) (xs.map fun o => (o, dayDelta o d))).2 := by
  rcases pyMinBy_eq_or_mem (xs.map fun o => (o, dayDelta o d))
      (x, dayDelta x d) with he | hmem
  · rw [he]
    exact ⟨List.mem_cons_self x xs, rfl⟩
  · obtain ⟨o, ho, heq⟩ := List.mem_map.mp hmem
    rw [← heq]
    exact ⟨List.mem_cons_of_mem x ho, rfl⟩

/-- C6: for every non-empty candidate list, `find_closest_opportunity` raises
`DateRangeToleranceExceeded` if and only if the minimum absolute day delta to
the transaction date is strictly greater than 10; when that minimum is at
most 10 — the boundary of exactly 10 included — it succeeds and returns a
closest candidate (one attaining the minimum delta). -/
theorem c6_tolerance_boundary (opps : List Opportunity)
    (t : PaypalTransaction) (org : Organization) (h : opps ≠ []) :
    (find_closest_opportunity opps t org = .error .dateRangeToleranceExceeded ↔
      10 < minDelta opps t.transaction_date) ∧
    (minDelta opps t.transaction_date ≤ 10 →
      ∃ o ∈ opps, find_closest_opportunity opps t org = .ok o ∧
        dayDelta o t.transaction_date = minDelta opps t.transaction_date) := by
  match opps with
  | [] => exact absurd rfl h
  | x :: xs =>
    have hsnd := pyMinBy_snd_eq_minDelta x xs t.transaction_date
    have hmem := pyMinBy_delta_mem x xs t.transaction_date
    rw [find_closest_opportunity_cons]
    simp only [gt_iff_lt, hsnd]
    by_cases hgt : 10 < minDelta (x :: xs) t.transaction_date
    · rw [if_pos hgt]
      exact ⟨⟨fun _ => hgt, fun _ => rfl⟩,
        fun hle => absurd hgt (Nat.not_lt.mpr hle)⟩
    · rw [if_neg hgt]
      refine ⟨⟨fun hcontra => ?_, fun hgt2 => absurd hgt2 hgt⟩, fun _ => ?_⟩
      · exact Except.noConfusion hcontra
      · exact ⟨_, hmem.1, rfl, hmem.2.trans hsnd⟩

/-- C6 witness: a single candidate at delta 2 is returned. -/
theorem c6_tolerance_boundary_witness :
    (([oppTieLate] : List Opportunity) ≠ []) ∧
    ((find_closest_opportunity [oppTieLate] tieTxn orgX =
        .error .dateRangeToleranceExceeded ↔
      10 < minDelta [oppTieLate] tieTxn.transaction_date) ∧
    (minDelta [oppTieLate] tieTxn.transaction_date ≤ 10 →
      ∃ o ∈ [oppTieLate], find_closest_opportunity [oppTieLate] tieTxn orgX =
          .ok o ∧
        dayDelta o tieTxn.transaction_date =
          minDelta [oppTieLate] tieTxn.transaction_date)) :=
  ⟨by simp, c6_tolerance_boundary [oppTieLate] tieTxn orgX (by simp)⟩

/-- C4 counterexample: two candidates tied at the minimum delta 2 (at most
10); the matcher returns the first-listed candidate `oppTieLate`, whose
close date 22 is not the earliest among the tied candidates — `oppTieEarly`
closes at 18 — contradicting the claimed earliest-close-date tie-break. -/
theorem c4_counterexample :
    find_closest_opportunity [oppTieLate, oppTieEarly] tieTxn orgX =
      .ok oppTieLate ∧
    dayDelta oppTieLate tieTxn.transaction_date =
      dayDelta oppTieEarly tieTxn.transaction_date ∧
    minDelta [oppTieLate, oppTieEarly] tieTxn.transaction_date = 2 ∧
    oppTieEarly.close_date < oppTieLate.close_date ∧
    oppTieLate ≠ oppTieEarly :=
  ⟨rfl, rfl, rfl, by decide, by decide⟩

/-- C4 (amended): when the minimum absolute day delta is at most 10,
`find_closest_opportunity` deterministically returns the first candidate in
input order among those attaining the minimum delta (Python's `min` is a
left scan replacing only on strictly smaller keys), not the tied candidate
with the earliest close date. -/
theorem c4_first_minimal (opps : List Opportunity) (t : PaypalTransaction)
    (org : Organization) (o : Opportunity)
    (hmin : minDelta opps t.transaction_date ≤ 10)
    (hfind : opps.find?
        (fun x => dayDelta x t.transaction_date ==
          minDelta opps t.transaction_date) = some o) :
    find_closest_opportunity opps t org = .ok o := by
  match opps with
  | [] => exact Option.noConfusion hfind
  | x :: xs =>
    have hsnd := pyMinBy_snd_eq_minDelta x xs t.transaction_date
    have hfp := pyMinBy_find?
      (xs.map fun o => (o, dayDelta o t.transaction_date))
      (x, dayDelta x t.transaction_date)
    have hmap : ((x :: xs).map fun o => (o, dayDelta o t.transaction_date)) =
        (x, dayDelta x t.transaction_date) ::
          (xs.map fun o => (o, dayDelta o t.transaction_date)) := rfl
    rw [← hmap, List.find?_map] at hfp
    have hfp2 : ((x :: xs).find?
        (fun o => dayDelta o t.transaction_date ==
          (pyMinBy (x, dayDelta x t.transaction_date)
            (xs.map fun o => (o, dayDelta o t.transaction_date))).2)).map
          (fun o => (o, dayDelta o t.transaction_date)) =
        some (pyMinBy (x, dayDelta x t.transaction_date)
          (xs.map fun o => (o, dayDelta o t.transaction_date))) := hfp
    rw [hsnd, hfind] at hfp2
    have hfo : (o, dayDelta o t.transaction_date) =
        pyMinBy (x, dayDelta x t.transaction_date)
          (xs.map fun o => (o, dayDelta o t.transaction_date)) := by
      simpa using hfp2
    rw [find_closest_opportunity_cons]
    simp only [gt_iff_lt, hsnd]
    rw [if_neg (Nat.not_lt.mpr hmin), ← hfo]

/-- C4 witness: with the tied candidates, the first-listed one is returned. -/
theorem c4_first_minimal_witness :
    (minDelta [oppTieLate, oppTieEarly] tieTxn.transaction_date ≤ 10 ∧
      [oppTieLate, oppTieEarly].find?
        (fun x => dayDelta x tieTxn.transaction_date ==
          minDelta [oppTieLate, oppTieEarly] tieTxn.transaction_date) =
        some oppTieLate) ∧
    find_closest_opportunity [oppTieLate, oppTieEarly] tieTxn orgX =
      .ok oppTieLate :=
  ⟨⟨by decide, by decide⟩,
    c4_first_minimal [oppTieLate, oppTieEarly] tieTxn orgX oppTieLate
      (by decide) (by decide)⟩

/-- C10: `find_closest_opportunity` applied to an empty candidate list raises
Python's `ValueError` (from `min` of an empty sequence), not
`DateRangeToleranceExceeded`; and that branch is reachable from the public
entry point — handling a first-sighted ACTIVE monthly subscription payment
against an empty store raises exactly this `ValueError`, because
`process_subscription_payment` queries the brand-new RecurringDonation's
(empty) linked Opportunities. -/
theorem c10_empty_candidates :
    (∀ (t : PaypalTransaction) (org : Organization),
      find_closest_opportunity [] t org = .error .valueError) ∧
    (handle_paypal_charge_external_initiation orgX subTxn ppcActive30
        stEmpty).2 = .error .valueError :=
  ⟨fun _ _ => rfl, rfl⟩

/-- C2 (code bug): the first-sighted ACTIVE 30-day-gap subscription payment
creates the Contact and the open monthly RecurringDonation, but no
Opportunity at all: the handler raises `ValueError` (Python `min` of the new
RecurringDonation's empty installment list) instead of completing. -/
theorem c2_first_sighting_creates_no_opportunity :
    (handle_paypal_charge_external_initiation orgX subTxn ppcActive30
        stEmpty).2 = .error .valueError ∧
    (handle_paypal_charge_external_initiation orgX subTxn ppcActive30
        stEmpty).1.contacts.length = 1 ∧
    (handle_paypal_charge_external_initiation orgX subTxn ppcActive30
        stEmpty).1.recurring_donations.map
        (fun r => (r.open_ended_status, r.installment_period)) =
      [("Open", "monthly")] ∧
    (handle_paypal_charge_external_initiation orgX subTxn ppcActive30
        stEmpty).1.opportunities = [] :=
  ⟨rfl, rfl, rfl, rfl⟩

/-- C3 (code bug): reconciling the same first-sighted subscription payment
twice yields zero Opportunities carrying its transaction id, not exactly
one — both invocations raise `ValueError`, the first after creating the
RecurringDonation and the second after finding it with no installments. -/
theorem c3_reprocessing_zero_opportunities :
    (handle_paypal_charge_external_initiation orgX subTxn ppcActive30
        stEmpty).2 = .error .valueError ∧
    (handle_paypal_charge_external_initiation orgX subTxn ppcActive30
        (handle_paypal_charge_external_initiation orgX subTxn ppcActive30
          stEmpty).1).2 = .error .valueError ∧
    opportunityCountForTxn
      (handle_paypal_charge_external_initiation orgX subTxn ppcActive30
        (handle_paypal_charge_external_initiation orgX subTxn ppcActive30
          stEmpty).1).1 "TXN2" = 0 :=
  ⟨rfl, rfl, rfl⟩

/-- C1 (code bug): a refund of `TXN1`, whose Opportunity links to the open
RecurringDonation for `SUB1` and whose vendor subscription is reported
`CANCELLED`, marks the Opportunity `Refunded` but leaves the
RecurringDonation's `open_ended_status` at `"Open"`: line 361 compares the
`PaypalSubscription` dataclass itself — not its status — to the string
`"CANCELLED"`, which is always false in Python. -/
theorem c1_refund_leaves_rd_open :
    (PaypalSubscription.fromDict
        (ppcCancelled rdOpen.paypal_subscription_id)).map (fun s => s.status) =
      .ok "CANCELLED" ∧
    (handle_paypal_charge_external_initiation orgX refundTxn ppcCancelled
        stRefund).2 = .ok () ∧
    (handle_paypal_charge_external_initiation orgX refundTxn ppcCancelled
        stRefund).1.opportunities.map (fun o => o.stage_name) = ["Refunded"] ∧
    (handle_paypal_charge_external_initiation orgX refundTxn ppcCancelled
        stRefund).1.recurring_donations.map (fun r => r.open_ended_status) =
      ["Open"] :=
  ⟨rfl, rfl, rfl, rfl⟩

/-- C7: for every raw subscription payload whose status is neither
`CANCELLED` nor `SUSPENDED` and which carries a next billing time, parsing
succeeds and the derived `installment_period` is monthly iff the day gap
from last payment to next billing is between 27 and 31 inclusive, yearly iff
it is between 361 and 366 inclusive, and absent otherwise; for `CANCELLED`
or `SUSPENDED` payloads parsing succeeds with no `installment_period` and no
error, even with no next billing time in the payload. -/
theorem c7_installment_derivation (data : RawSubscription) :
    (data.status ≠ "CANCELLED" → data.status ≠ "SUSPENDED" →
      ∀ nb, data.next_billing_time = some nb →
      ∃ s, PaypalSubscription.fromDict data = .ok s ∧
        (s.installment_period = some PeriodType.monthly ↔
          27 ≤ nb - data.last_payment_time ∧ nb - data.last_payment_time ≤ 31) ∧
        (s.installment_period = some PeriodType.yearly ↔
          361 ≤ nb - data.last_payment_time ∧ nb - data.last_payment_time ≤ 366) ∧
        (s.installment_period = none ↔
          ¬(27 ≤ nb - data.last_payment_time ∧
              nb - data.last_payment_time ≤ 31) ∧
          ¬(361 ≤ nb - data.last_payment_time ∧
              nb - data.last_payment_time ≤ 366))) ∧
    ((data.status = "CANCELLED" ∨ data.status = "SUSPENDED") →
      ∃ s, PaypalSubscription.fromDict data = .ok s ∧
        s.installment_period = none) := by
  constructor
  · intro h1 h2 nb hnb
    unfold PaypalSubscription.fromDict
    rw [if_neg h1, if_neg h2, hnb]
    dsimp only
    by_cases hm : 27 ≤ nb - data.last_payment_time ∧
        nb - data.last_payment_time ≤ 31
    · rw [if_pos hm]
      refine ⟨_, rfl, ?_, ?_, ?_⟩
      · exact ⟨fun _ => hm, fun _ => rfl⟩
      · constructor
        · intro hc
          exact absurd hc (by simp)
        · intro hy
          exfalso
          omega
      · constructor
        · intro hc
          exact absurd hc (by simp)
        · intro hno
          exact absurd hm hno.1
    · rw [if_neg hm]
      by_cases hy : 360 < nb - data.last_payment_time ∧
          nb - data.last_payment_time ≤ 366
      · rw [if_pos hy]
        refine ⟨_, rfl, ?_, ?_, ?_⟩
        · constructor
          · intro hc
            exact absurd hc (by simp)
          · intro hmm
            exfalso
            omega
        · constructor
          · intro _
            omega
          · intro _
            rfl
        · constructor
          · intro hc
            exact absurd hc (by simp)
          · intro hno
            exfalso
            exact hno.2 (by omega)
      · rw [if_neg hy]
        refine ⟨_, rfl, ?_, ?_, ?_⟩
        · constructor
          · intro hc
            exact absurd hc (by simp)
          · intro hmm
            exact absurd hmm hm
        · constructor
          · intro hc
            exact absurd hc (by simp)
          · intro hyy
            exfalso
            omega
        · exact ⟨fun _ => ⟨hm, fun hyy => hy (by omega)⟩, fun _ => rfl⟩
  · intro hcs
    unfold PaypalSubscription.fromDict
    rcases hcs with hc | hs
    · rw [if_pos hc]
      exact ⟨_, rfl, rfl⟩
    · by_cases hc : data.status = "CANCELLED"
      · rw [if_pos hc]
        exact ⟨_, rfl, rfl⟩
      · rw [if_neg hc, if_pos hs]
        exact ⟨_, rfl, rfl⟩

/-- C7 witness: an `ACTIVE` payload with a 30-day gap parses to a monthly
installment period. -/
theorem c7_installment_derivation_witness :
    ((ppcActive30 none).status ≠ "CANCELLED" ∧
      (ppcActive30 none).status ≠ "SUSPENDED" ∧
      (ppcActive30 none).next_billing_time = some 230) ∧
    ∃ s, PaypalSubscription.fromDict (ppcActive30 none) = .ok s ∧
      (s.installment_period = some PeriodType.monthly ↔
        27 ≤ (230 : Int) - 200 ∧ (230 : Int) - 200 ≤ 31) ∧
      (s.installment_period = some PeriodType.yearly ↔
        361 ≤ (230 : Int) - 200 ∧ (230 : Int) - 200 ≤ 366) ∧
      (s.installment_period = none ↔
        ¬(27 ≤ (230 : Int) - 200 ∧ (230 : Int) - 200 ≤ 31) ∧
        ¬(361 ≤ (230 : Int) - 200 ∧ (230 : Int) - 200 ≤ 366)) :=
  ⟨⟨by decide, by decide, rfl⟩,
    (c7_installment_derivation (ppcActive30 none)).1 (by decide) (by decide)
      230 rfl⟩

/-- A `T0002` transaction with negative gross amount is skipped: no state
change, no error. -/
theorem handle_T0002_negative_skips (t : PaypalTransaction)
    (org : Organization) (ppc : Option String → RawSubscription)
    (st : CRMState) (hcode : t.event_code = "T0002")
    (hneg : t.gross_amount < 0) :
    handle_paypal_charge_external_initiation org t ppc st = (st, .ok ()) := by
  unfold handle_paypal_charge_external_initiation
  rw [hcode]
  rw [if_neg (by decide), if_neg (by simp), if_neg (by simp),
    if_neg (by decide), if_neg (by decide), if_neg (by simp), if_pos hneg]

/-- A `T0002` transaction with non-negative gross amount and a status other
than `"S"` raises. -/
theorem handle_T0002_not_settled_raises (t : PaypalTransaction)
    (org : Organization) (ppc : Option String → RawSubscription)
    (st : CRMState) (hcode : t.event_code = "T0002")
    (hgross : 0 ≤ t.gross_amount) (hs : t.status ≠ "S") :
    handle_paypal_charge_external_initiation org t ppc st =
      (st, .error (.exception "Transaction status is not S")) := by
  unfold handle_paypal_charge_external_initiation
  rw [hcode]
  rw [if_neg (by decide), if_neg (by simp), if_neg (by simp),
    if_neg (by decide), if_neg (by decide), if_neg (by simp),
    if_neg (Int.not_lt.mpr hgross), if_pos hs]

/-- A settled `T0002` transaction with non-negative gross amount is routed to
the subscription-charge tail. -/
theorem handle_T0002_routes (t : PaypalTransaction) (org : Organization)
    (ppc : Option String → RawSubscription) (st : CRMState)
    (hcode : t.event_code = "T0002") (hgross : 0 ≤ t.gross_amount)
    (hs : t.status = "S") :
    handle_paypal_charge_external_initiation org t ppc st =
      handle_subscription_charge t org ppc st := by
  unfold handle_paypal_charge_external_initiation
  rw [hcode]
  rw [if_neg (by decide), if_neg (by simp), if_neg (by simp),
    if_neg (by decide), if_neg (by decide), if_neg (by simp),
    if_neg (Int.not_lt.mpr hgross), if_neg (by simp [hs])]

/-- C8: for every transaction with event code `T0002`: a negative gross
amount is ignored (no state change, no error); a non-negative amount with a
status other than `"S"` raises a fatal error rather than being skipped; and
only a non-negative settled (`"S"`) transaction proceeds to
subscription-payment handling. -/
theorem c8_t0002_gating (t : PaypalTransaction) (org : Organization)
    (ppc : Option String → RawSubscription) (st : CRMState)
    (hcode : t.event_code = "T0002") :
    (t.gross_amount < 0 →
      handle_paypal_charge_external_initiation org t ppc st = (st, .ok ())) ∧
    (0 ≤ t.gross_amount → t.status ≠ "S" →
      handle_paypal_charge_external_initiation org t ppc st =
        (st, .error (.exception "Transaction status is not S"))) ∧
    (0 ≤ t.gross_amount → t.status = "S" →
      handle_paypal_charge_external_initiation org t ppc st =
        handle_subscription_charge t org ppc st) :=
  ⟨fun hneg => handle_T0002_negative_skips t org ppc st hcode hneg,
    fun hgross hs => handle_T0002_not_settled_raises t org ppc st hcode hgross hs,
    fun hgross hs => handle_T0002_routes t org ppc st hcode hgross hs⟩

/-- C8 witness: the fixture subscription payment is settled and routed. -/
theorem c8_t0002_gating_witness :
    subTxn.event_code = "T0002" ∧
    (0 ≤ subTxn.gross_amount ∧ subTxn.status = "S") ∧
    handle_paypal_charge_external_initiation orgX subTxn ppcActive30 stEmpty =
      handle_subscription_charge subTxn orgX ppcActive30 stEmpty :=
  ⟨rfl, ⟨by decide, rfl⟩,
    (c8_t0002_gating subTxn orgX ppcActive30 stEmpty rfl).2.2 (by decide) rfl⟩

/-- C5 counterexample: a settled `T0002` payment without a `SUB` reference
finds a RecurringDonation by account id whose only linked Opportunity is 11
days away; the handler propagates `DateRangeToleranceExceeded` and leaves
the state untouched — no new linked Opportunity is created, contrary to the
claim. -/
theorem c5_counterexample :
    nonSubTxn.event_code = "T0002" ∧
    nonSubTxn.reference_id_type ≠ some "SUB" ∧
    RecurringDonation.getByAccount stByAccount orgX.sfc nonSubTxn.account_id =
      some rdByAccount ∧
    minDelta (rdByAccount.opportunities stByAccount)
      nonSubTxn.transaction_date = 11 ∧
    (handle_paypal_charge_external_initiation orgX nonSubTxn ppcActive30
        stByAccount).2 = .error .dateRangeToleranceExceeded ∧
    (handle_paypal_charge_external_initiation orgX nonSubTxn ppcActive30
        stByAccount).1 = stByAccount :=
  ⟨rfl, by decide, rfl, rfl, rfl, rfl⟩

/-- C5 (amended): for every settled non-negative `T0002` transaction whose
`reference_id_type` is not `SUB`, the handler looks a RecurringDonation up
by account id; if one is found, the closest linked Opportunity is updated
when the matcher succeeds, and any matcher failure — including
`DateRangeToleranceExceeded` when no linked Opportunity lies within the
10-day tolerance — propagates as an error with no new Opportunity created;
if none is found, the transaction is processed as a standalone single
Opportunity. -/
theorem c5_non_sub_lookup (t : PaypalTransaction) (org : Organization)
    (ppc : Option String → RawSubscription) (st : CRMState)
    (hcode : t.event_code = "T0002") (hgross : 0 ≤ t.gross_amount)
    (hs : t.status = "S") (hns : t.reference_id_type ≠ some "SUB") :
    handle_paypal_charge_external_initiation org t ppc st =
      match RecurringDonation.getByAccount st org.sfc t.account_id with
      | some rd =>
        (match find_closest_opportunity (rd.opportunities st) t org with
         | .ok o => (update_opportunity o t st, .ok ())
         | .error e => (st, .error e))
      | none => process_as_single_opportunity t org none st := by
  rw [handle_T0002_routes t org ppc st hcode hgross hs]
  unfold handle_subscription_charge
  rw [if_neg hns]

/-- C5 witness: the amended routing evaluated at the fixture. -/
theorem c5_non_sub_lookup_witness :
    (nonSubTxn.event_code = "T0002" ∧ 0 ≤ nonSubTxn.gross_amount ∧
      nonSubTxn.status = "S" ∧ nonSubTxn.reference_id_type ≠ some "SUB") ∧
    handle_paypal_charge_external_initiation orgX nonSubTxn ppcActive30
        stByAccount =
      match RecurringDonation.getByAccount stByAccount orgX.sfc
          nonSubTxn.account_id with
      | some rd =>
        (match find_closest_opportunity (rd.opportunities stByAccount)
            nonSubTxn orgX with
         | .ok o => (update_opportunity o nonSubTxn stByAccount, .ok ())
         | .error e => (stByAccount, .error e))
      | none => process_as_single_opportunity nonSubTxn orgX none stByAccount :=
  ⟨⟨rfl, by decide, rfl, by decide⟩,
    c5_non_sub_lookup nonSubTxn orgX ppcActive30 stByAccount rfl (by decide)
      rfl (by decide)⟩

/-! ### The RecurringDonation status invariant -/

theorem rdStep_of_eq (pre post : CRMState)
    (hr : post.recurring_donations = pre.recurring_donations)
    (hn : pre.nextId ≤ post.nextId) : RdStep pre post := by
  refine ⟨hn, ?_⟩
  intro r' hr'
  rw [hr] at hr'
  exact Or.inl ⟨r', hr', rfl, Or.inl rfl⟩

theorem rdStep_refl (st : CRMState) : RdStep st st :=
  rdStep_of_eq st st rfl (Nat.le_refl _)

theorem rdStep_trans (a b c : CRMState) (h1 : RdStep a b) (h2 : RdStep b c) :
    RdStep a c := by
  obtain ⟨hn1, hs1⟩ := h1
  obtain ⟨hn2, hs2⟩ := h2
  refine ⟨Nat.le_trans hn1 hn2, ?_⟩
  intro r' hr'
  rcases hs2 r' hr' with ⟨r1, hr1, hid1, hst1⟩ | ⟨i, hi, hni⟩
  · rcases hs1 r1 hr1 with ⟨r0, hr0, hid0, hst0⟩ | ⟨i, hi, hni⟩
    · refine Or.inl ⟨r0, hr0, hid0.trans hid1, ?_⟩
      rcases hst0 with hst0 | hst0
      · rcases hst1 with hst1 | hst1
        · exact Or.inl (hst0.trans hst1)
        · exact Or.inr hst1
      · rcases hst1 with hst1 | hst1
        · exact Or.inr (hst1 ▸ hst0)
        · exact Or.inr hst1
    · exact Or.inr ⟨i, hid1 ▸ hi, hni⟩
  · exact Or.inr ⟨i, hi, Nat.le_trans hn1 hni⟩

theorem contact_upsert_rdStep (c : Contact) (st : CRMState) :
    RdStep st (c.upsert st).2 := by
  unfold Contact.upsert
  split
  · exact rdStep_refl st
  · exact rdStep_of_eq _ _ rfl (Nat.le_succ _)

theorem opportunity_upsert_rdStep (o : Opportunity) (st : CRMState) :
    RdStep st (o.upsert st).2 := by
  unfold Opportunity.upsert
  split
  · exact rdStep_refl st
  · exact rdStep_of_eq _ _ rfl (Nat.le_succ _)

theorem opportunity_save_rdStep (o : Opportunity) (st : CRMState) :
    RdStep st (o.save st).2 := by
  unfold Opportunity.save
  split
  · exact rdStep_of_eq _ _ rfl (Nat.le_succ _)
  · exact rdStep_of_eq _ _ rfl (Nat.le_refl _)

theorem update_opportunity_rdStep (o : Opportunity) (t : PaypalTransaction)
    (st : CRMState) : RdStep st (update_opportunity o t st) :=
  opportunity_save_rdStep _ st

/-- Saving a brand-new RecurringDonation appends it with a fresh id. -/
theorem recurring_donation_save_fresh_rdStep (r : RecurringDonation)
    (st : CRMState) (h : r.id_ = none) : RdStep st (r.save st).2 := by
  unfold RecurringDonation.save
  split
  · refine ⟨Nat.le_succ _, ?_⟩
    intro r' hr'
    rcases List.mem_append.mp hr' with hold | hnew
    · exact Or.inl ⟨r', hold, rfl, Or.inl rfl⟩
    · rcases List.mem_singleton.mp hnew with rfl
      exact Or.inr ⟨st.nextId, rfl, Nat.le_refl _⟩
  · rename_i i heq
    rw [h] at heq
    exact Option.noConfusion heq

/-- Saving a RecurringDonation whose status is `"Closed"` only ever closes
stored records. -/
theorem recurring_donation_save_closed_rdStep (r : RecurringDonation)
    (st : CRMState) (h : r.open_ended_status = "Closed") :
    RdStep st (r.save st).2 := by
  unfold RecurringDonation.save
  split
  · refine ⟨Nat.le_succ _, ?_⟩
    intro r' hr'
    rcases List.mem_append.mp hr' with hold | hnew
    · exact Or.inl ⟨r', hold, rfl, Or.inl rfl⟩
    · rcases List.mem_singleton.mp hnew with rfl
      exact Or.inr ⟨st.nextId, rfl, Nat.le_refl _⟩
  · rename_i i heq
    refine ⟨Nat.le_refl _, ?_⟩
    intro r' hr'
    obtain ⟨x, hx, hxr⟩ := List.mem_map.mp hr'
    by_cases hxi : x.id_ = some i
    · rw [if_pos hxi] at hxr
      subst hxr
      exact Or.inl ⟨x, hx, hxi.trans heq.symm, Or.inr h⟩
    · rw [if_neg hxi] at hxr
      subst hxr
      exact Or.inl ⟨x, hx, rfl, Or.inl rfl⟩

theorem process_as_single_opportunity_rdStep (t : PaypalTransaction)
    (org : Organization) (s : Option PaypalSubscription) (st : CRMState) :
    RdStep st (process_as_single_opportunity t org s st).1 := by
  unfold process_as_single_opportunity
  dsimp only
  split
  · exact rdStep_refl st
  · split
    · exact rdStep_refl st
    · exact rdStep_trans _ _ _ (contact_upsert_rdStep _ st)
        (opportunity_upsert_rdStep _ _)

theorem process_refund_rdStep (t : PaypalTransaction) (org : Organization)
    (ppc : Option String → RawSubscription) (st : CRMState) :
    RdStep st (process_refund t org ppc st).1 := by
  unfold process_refund
  dsimp only
  split
  · exact rdStep_refl st
  · split
    · exact opportunity_save_rdStep _ st
    · split
      · exact opportunity_save_rdStep _ st
      · split
        · exact opportunity_save_rdStep _ st
        · split
          · exact opportunity_save_rdStep _ st
          · split
            · exact rdStep_trans _ _ _ (opportunity_save_rdStep _ st)
                (recurring_donation_save_closed_rdStep _ _ rfl)
            · exact opportunity_save_rdStep _ st

theorem process_subscription_payment_tail_rdStep (t : PaypalTransaction)
    (s : PaypalSubscription) (org : Organization) (rd : RecurringDonation)
    (st : CRMState) :
    RdStep st (process_subscription_payment_tail t s org rd st).1 := by
  have hclosed : RdStep st
      (if s.status = "CANCELLED" then
        ({ rd with open_ended_status := "Closed" }).save st
      else (rd, st)).2 := by
    split
    · exact recurring_donation_save_closed_rdStep _ st rfl
    · exact rdStep_refl st
  unfold process_subscription_payment_tail
  dsimp only
  split
  · exact rdStep_trans _ _ _ hclosed (update_opportunity_rdStep _ _ _)
  · split
    · exact hclosed
    · split
      · exact hclosed
      · split
        · exact rdStep_trans _ _ _ hclosed (contact_upsert_rdStep _ _)
        · exact rdStep_trans _ _ _ hclosed
            (rdStep_trans _ _ _ (contact_upsert_rdStep _ _)
              (update_opportunity_rdStep _ _ _))
  · exact hclosed

/-- A RecurringDonation produced by
`recurring_donation_from_paypal_subscription` is brand new (`id_ = none`)
and `"Open"`. -/
theorem recurring_donation_from_ok (s : PaypalSubscription) (d : Int)
    (c : Contact) (org : Organization) (rd : RecurringDonation)
    (h : recurring_donation_from_paypal_subscription s d c org = .ok rd) :
    rd.id_ = none ∧ rd.open_ended_status = "Open" := by
  unfold recurring_donation_from_paypal_subscription at h
  split at h
  · exact Except.noConfusion h
  · split at h
    · exact Except.noConfusion h
    · injection h with h
      subst h
      exact ⟨rfl, rfl⟩

theorem process_subscription_payment_rdStep (t : PaypalTransaction)
    (s : PaypalSubscription) (org : Organization) (st : CRMState) :
    RdStep st (process_subscription_payment t s org st).1 := by
  unfold process_subscription_payment
  dsimp only
  split
  · exact process_subscription_payment_tail_rdStep _ _ _ _ _
  · split
    · exact process_as_single_opportunity_rdStep _ _ _ _
    · split
      · exact process_as_single_opportunity_rdStep _ _ _ _
      · split
        · exact process_as_single_opportunity_rdStep _ _ _ _
        · split
          · exact rdStep_refl st
          · split
            · exact rdStep_refl st
            · split
              · exact contact_upsert_rdStep _ _
              · rename_i contact r1 rd heq
                obtain ⟨hid, _⟩ :=
                  recurring_donation_from_ok _ _ _ _ _ heq
                exact rdStep_trans _ _ _ (contact_upsert_rdStep _ _)
                  (rdStep_trans _ _ _
                    (recurring_donation_save_fresh_rdStep _ _ hid)
                    (process_subscription_payment_tail_rdStep _ _ _ _ _))

theorem handle_subscription_charge_rdStep (t : PaypalTransaction)
    (org : Organization) (ppc : Option String → RawSubscription)
    (st : CRMState) :
    RdStep st (handle_subscription_charge t org ppc st).1 := by
  unfold handle_subscription_charge
  dsimp only
  split
  · split
    · exact rdStep_refl st
    · split
      · exact rdStep_refl st
      · exact process_subscription_payment_rdStep _ _ _ _
  · split
    · split
      · exact update_opportunity_rdStep _ _ _
      · exact rdStep_refl st
    · exact process_as_single_opportunity_rdStep _ _ _ _

theorem handle_rdStep (org : Organization) (t : PaypalTransaction)
    (ppc : Option String → RawSubscription) (st : CRMState) :
    RdStep st (handle_paypal_charge_external_initiation org t ppc st).1 := by
  unfold handle_paypal_charge_external_initiation
  split
  · exact rdStep_refl st
  · split
    · exact rdStep_refl st
    · split
      · exact rdStep_refl st
      · split
        · exact process_refund_rdStep _ _ _ _
        · split
          · exact process_as_single_opportunity_rdStep _ _ _ _
          · split
            · exact rdStep_refl st
            · split
              · exact rdStep_refl st
              · split
                · exact rdStep_refl st
                · exact handle_subscription_charge_rdStep _ _ _ _

/-- C9: from a well-formed state, one invocation of the engine never moves a
`"Closed"` RecurringDonation back to any other status — every stored record
with the same id afterwards is still `"Closed"` — and every `"Open"` record
afterwards either was already `"Open"` under the same id or is a brand-new
record (fresh id) constructed for a newly seen subscription. -/
theorem c9_open_ended_status_monotonic (org : Organization)
    (t : PaypalTransaction) (ppc : Option String → RawSubscription)
    (st : CRMState) (hwf : WellFormed st) :
    (∀ r ∈ st.recurring_donations, r.open_ended_status = "Closed" →
      ∀ r' ∈ (handle_paypal_charge_external_initiation org t ppc
          st).1.recurring_donations,
        r'.id_ = r.id_ → r'.open_ended_status = "Closed") ∧
    (∀ r' ∈ (handle_paypal_charge_external_initiation org t ppc
        st).1.recurring_donations,
      r'.open_ended_status = "Open" →
        (∃ r ∈ st.recurring_donations, r.id_ = r'.id_ ∧
          r.open_ended_status = "Open") ∨
        ∃ i, r'.id_ = some i ∧ st.nextId ≤ i) := by
  obtain ⟨hb, hstep⟩ := handle_rdStep org t ppc st
  constructor
  · intro r hr hclosed r' hr' hid
    rcases hstep r' hr' with ⟨r0, hr0, hid0, hs0⟩ | ⟨i, hi, hni⟩
    · have he : r0 = r := hwf.2 r0 hr0 r hr (hid0.trans hid)
      subst he
      rcases hs0 with hs0 | hs0
      · exact hs0 ▸ hclosed
      · exact hs0
    · exfalso
      have hall := hwf.1 r hr
      rw [hid] at hi
      rw [hi] at hall
      simp only [Option.all_some, decide_eq_true_eq] at hall
      omega
  · intro r' hr' hopen
    rcases hstep r' hr' with ⟨r0, hr0, hid0, hs0⟩ | hf
    · rcases hs0 with hs0 | hs0
      · exact Or.inl ⟨r0, hr0, hid0, hs0.trans hopen⟩
      · exact absurd (hs0.symm.trans hopen) (by decide)
    · exact Or.inr hf

/-- C9 witness: the invariant applied to the refund fixture state. -/
theorem c9_open_ended_status_monotonic_witness :
    WellFormed stRefund ∧
    ((∀ r ∈ stRefund.recurring_donations, r.open_ended_status = "Closed" →
      ∀ r' ∈ (handle_paypal_charge_external_initiation orgX refundTxn
          ppcCancelled stRefund).1.recurring_donations,
        r'.id_ = r.id_ → r'.open_ended_status = "Closed") ∧
    (∀ r' ∈ (handle_paypal_charge_external_initiation orgX refundTxn
        ppcCancelled stRefund).1.recurring_donations,
      r'.open_ended_status = "Open" →
        (∃ r ∈ stRefund.recurring_donations, r.id_ = r'.id_ ∧
          r.open_ended_status = "Open") ∨
        ∃ i, r'.id_ = some i ∧ stRefund.nextId ≤ i)) :=
  ⟨⟨by decide, by decide⟩,
    c9_open_ended_status_monotonic orgX refundTxn ppcCancelled stRefund
      ⟨by decide, by decide⟩⟩

end PaypalSF
